import Mathlib

/-!
Shallow embedding of the promotion rule engine
(`src/rule_engine/matcher.py`, `src/rule_engine/loader.py`,
`src/rule_engine/models.py`) and proofs about the claims of the
natural-language specification.

Python values flowing through the engine (YAML scalars, lists, dicts) are
modelled by the inductive type `Value`; Python dicts are association lists
with string keys in insertion order.  Python floats are modelled as exact
rationals (the engine only compares and copies them; no float rounding is
exercised by any claim).  Fallible Python code (code that can raise) is
modelled in the `Except RunErr` monad; an uncaught exception of the
evaluation entry point is an `EvalErr`.
-/

namespace PromoEngine

/-- A Python value as used by the rule engine: `None`, booleans, ints,
floats (modelled as exact rationals), strings, lists and string-keyed
dicts (association lists in insertion order). -/
inductive Value where
  | none : Value
  | bool (b : Bool) : Value
  | int (n : Int) : Value
  | float (q : Rat) : Value
  | str (s : String) : Value
  | list (xs : List Value) : Value
  | dict (xs : List (String × Value)) : Value
deriving Repr

/-- A Python dict with string keys (e.g. a rule, a player record, a
condition mapping), in insertion order. -/
abbrev Record := List (String × Value)

/-- Python `d.get(k)` / `k in d`: first binding of the key, if any. -/
def Record.get (r : Record) (k : String) : Option Value :=
  (r.find? (fun p => p.1 == k)).map (fun p => p.2)

/-- Python `d.get(k, default)`. -/
def Record.getD (r : Record) (k : String) (d : Value) : Value :=
  (Record.get r k).getD d

/-- Python `d[k] = v` for a key that may or may not be present: replaces
the value in place if the key exists (insertion order is kept), appends
otherwise. -/
def Record.set (r : Record) (k : String) (v : Value) : Record :=
  if (r.find? (fun p => p.1 == k)).isSome then
    r.map (fun p => if p.1 == k then (k, v) else p)
  else r ++ [(k, v)]

/-- Python `d.setdefault(k, v)`: appends the binding only when the key is
absent. -/
def Record.setdefault (r : Record) (k : String) (v : Value) : Record :=
  if (Record.get r k).isSome then r else r ++ [(k, v)]

/-- Python truthiness (`bool(v)`): `None`, `False`, `0`, `0.0`, `""`,
`[]`, `{}` are falsy, everything else truthy. -/
def truthy : Value → Bool
  | .none => false
  | .bool b => b
  | .int n => n != 0
  | .float q => q != 0
  | .str s => s != ""
  | .list xs => !xs.isEmpty
  | .dict xs => !xs.isEmpty

/-- Numeric view of a value, for Python's cross-type numeric `==` and
`<`: `bool` is a subtype of `int` in Python (`True == 1`). -/
def Value.asNum? : Value → Option Rat
  | .bool b => some (if b then 1 else 0)
  | .int n => some (n : Rat)
  | .float q => some q
  | _ => Option.none

mutual

/-- Python `==` on the embedded values: numeric kinds compare by value
(`1 == 1.0 == True`), strings by contents, lists pointwise; dicts are
compared pointwise in insertion order (a mild strengthening of Python's
order-insensitive dict equality, not exercised by any claim); `None`
equals only `None`; values of unrelated kinds are unequal. -/
def pyEq : Value → Value → Bool
  | .none, .none => true
  | .str a, .str b => a == b
  | .list a, .list b => pyEqList a b
  | .dict a, .dict b => pyEqDict a b
  | a, b =>
    match a.asNum?, b.asNum? with
    | some x, some y => x == y
    | _, _ => false

/-- Pointwise Python `==` on lists. -/
def pyEqList : List Value → List Value → Bool
  | [], [] => true
  | a :: as, b :: bs => pyEq a b && pyEqList as bs
  | _, _ => false

/-- Pointwise Python `==` on dict entries. -/
def pyEqDict : List (String × Value) → List (String × Value) → Bool
  | [], [] => true
  | (k, v) :: as, (k', v') :: bs => k == k' && pyEq v v' && pyEqDict as bs
  | _, _ => false

end

/-- Python's default whitespace set for `str.strip()` / `float(str)`. -/
def isSpaceChar (c : Char) : Bool :=
  [' ', '\t', '\n', '\r', '\x0b', '\x0c'].contains c

/-- Python `str.strip()` on a char list (drop surrounding whitespace). -/
def trimChars (cs : List Char) : List Char :=
  ((cs.dropWhile isSpaceChar).reverse.dropWhile isSpaceChar).reverse

/-- ASCII lowering of one character (the day names and weekday names the
engine lowers are ASCII; the full-Unicode `str.lower()` coincides with
this on them). -/
def asciiLowerChar (c : Char) : Char :=
  if 'A' ≤ c && c ≤ 'Z' then Char.ofNat (c.toNat + 32) else c

/-- Python `str.lower()` on the engine's ASCII inputs. -/
def asciiLower (s : String) : String :=
  String.mk (s.data.map asciiLowerChar)

/-- Split a char list at every `':'` (Python `s.split(":")`). -/
def splitColon : List Char → List (List Char)
  | [] => [[]]
  | ':' :: rest => [] :: splitColon rest
  | c :: rest =>
    match splitColon rest with
    | g :: gs => (c :: g) :: gs
    | [] => [[c]]

/-- Digit list to number, most significant first. -/
def digitsToNat (cs : List Char) : Nat :=
  cs.foldl (fun a c => a * 10 + (c.toNat - 48)) 0

/-- Parse the body of a decimal numeral (`"12"`, `"12.5"`, `".5"`,
`"12."`). -/
def parseDecimal? (cs : List Char) : Option Rat :=
  let intPart := cs.takeWhile Char.isDigit
  let rest := cs.dropWhile Char.isDigit
  match rest with
  | [] => if intPart.isEmpty then Option.none else some (digitsToNat intPart : Rat)
  | '.' :: frac =>
    if frac.all Char.isDigit && !(intPart.isEmpty && frac.isEmpty) then
      some ((digitsToNat intPart : Rat) + (digitsToNat frac : Rat) / ((10 : Rat) ^ frac.length))
    else Option.none
  | _ => Option.none

/-- Model of Python `float(string)` on plain decimal numerals: optional
surrounding whitespace, optional sign, digits with an optional fractional
part.  (Exponent, `inf` and `nan` spellings of the builtin are outside
the modelled fragment; no claim uses them.) -/
def parseFloat? (s : String) : Option Rat :=
  match trimChars s.data with
  | [] => Option.none
  | '-' :: body => (parseDecimal? body).map (fun q => -q)
  | '+' :: body => parseDecimal? body
  | body => parseDecimal? body

/-- Model of Python `float(v)`: numbers and booleans convert exactly,
strings are parsed, everything else fails (the engine catches
`ValueError` and `TypeError` together, so the failure kind is not
distinguished). -/
def pyFloat : Value → Option Rat
  | .bool b => some (if b then 1 else 0)
  | .int n => some (n : Rat)
  | .float q => some q
  | .str s => parseFloat? s
  | _ => Option.none

/-- An exception raised by the engine's helper code and not caught there:
Python `TypeError`, `AttributeError`, `re.error`, or a `ValueError` other
than the matcher's own input check. -/
inductive RunErr where
  | typeError : RunErr
  | attributeError : RunErr
  | valueError : RunErr
  | reError : RunErr
deriving DecidableEq, Repr

/-- An exception escaping `RuleMatcher.evaluate`: either its own
`ValueError("Player data must contain 'player_id'")` (the spec's
InvalidInput) or an uncaught runtime exception from rule evaluation. -/
inductive EvalErr where
  | invalidInput : EvalErr
  | runtime (e : RunErr) : EvalErr
deriving DecidableEq, Repr

/-- Python `<=` on strings restricted to char lists: lexicographic by
code point. -/
def charListLe : List Char → List Char → Bool
  | [], _ => true
  | _ :: _, [] => false
  | a :: as, b :: bs => if a = b then charListLe as bs else decide (a < b)

/-- Python `<=` on strings: lexicographic by code point. -/
def strLe (a b : String) : Bool := charListLe a.data b.data

/-- Python's `time.strftime('%H:%M')`, i.e. the zero-padded rendering of
an hour/minute pair (meaningful for `h, m < 100`). -/
def fmtHHMM (h m : Nat) : String :=
  String.mk [Char.ofNat (48 + h / 10), Char.ofNat (48 + h % 10), ':',
             Char.ofNat (48 + m / 10), Char.ofNat (48 + m % 10)]

/-- Model of `datetime.strptime(s, "%H:%M")`, returning the parsed
hour/minute pair: one or two digits for each field, `0 ≤ h ≤ 23`,
`0 ≤ m ≤ 59`; `Option.none` models the `ValueError` raised on any other
string. -/
def parseHHMM (s : String) : Option (Nat × Nat) :=
  match splitColon s.data with
  | [h, m] =>
    if h.all Char.isDigit && m.all Char.isDigit
        && 0 < h.length && h.length ≤ 2 && 0 < m.length && m.length ≤ 2
        && digitsToNat h ≤ 23 && digitsToNat m ≤ 59 then
      some (digitsToNat h, digitsToNat m)
    else Option.none
  | _ => Option.none

/-- The evaluation-time clock (`self.time_provider()`), reduced to the
facets the matcher reads: the `strftime("%A")` weekday name and the
time of day at minute granularity (the windows are specified in whole
minutes). -/
structure Clock where
  weekday : String
  hour : Nat
  minute : Nat

/-- Time of day of the clock, in minutes since midnight. -/
def Clock.tod (c : Clock) : Nat := c.hour * 60 + c.minute

/-! ### SHA-256 (`hashlib.sha256`), over byte lists -/

/-- Truncation to a 32-bit word. -/
def w32 (n : Nat) : Nat := n % 4294967296

/-- 32-bit right rotation. -/
def rotr (x n : Nat) : Nat := w32 ((x >>> n) ||| (x <<< (32 - n)))

/-- 32-bit complement. -/
def compl32 (x : Nat) : Nat := x ^^^ 4294967295

/-- SHA-256 `Ch`. -/
def shaCh (x y z : Nat) : Nat := (x &&& y) ^^^ (compl32 x &&& z)

/-- SHA-256 `Maj`. -/
def shaMaj (x y z : Nat) : Nat := (x &&& y) ^^^ (x &&& z) ^^^ (y &&& z)

/-- SHA-256 `Σ0`. -/
def bsig0 (x : Nat) : Nat := rotr x 2 ^^^ rotr x 13 ^^^ rotr x 22

/-- SHA-256 `Σ1`. -/
def bsig1 (x : Nat) : Nat := rotr x 6 ^^^ rotr x 11 ^^^ rotr x 25

/-- SHA-256 `σ0`. -/
def ssig0 (x : Nat) : Nat := rotr x 7 ^^^ rotr x 18 ^^^ (x >>> 3)

/-- SHA-256 `σ1`. -/
def ssig1 (x : Nat) : Nat := rotr x 17 ^^^ rotr x 19 ^^^ (x >>> 10)

/-- SHA-256 round constants (FIPS 180-4, in decimal). -/
def shaK : List Nat :=
  [1116352408, 1899447441, 3049323471, 3921009573, 961987163, 1508970993,
   2453635748, 2870763221, 3624381080, 310598401, 607225278, 1426881987,
   1925078388, 2162078206, 2614888103, 3248222580, 3835390401, 4022224774,
   264347078, 604807628, 770255983, 1249150122, 1555081692, 1996064986,
   2554220882, 2821834349, 2952996808, 3210313671, 3336571891, 3584528711,
   113926993, 338241895, 666307205, 773529912, 1294757372, 1396182291,
   1695183700, 1986661051, 2177026350, 2456956037, 2730485921, 2820302411,
   3259730800, 3345764771, 3516065817, 3600352804, 4094571909, 275423344,
   430227734, 506948616, 659060556, 883997877, 958139571, 1322822218,
   1537002063, 1747873779, 1955562222, 2024104815, 2227730452, 2361852424,
   2428436474, 2756734187, 3204031479, 3329325298]

/-- SHA-256 initial hash state (FIPS 180-4, in decimal). -/
def shaH0 : List Nat :=
  [1779033703, 3144134277, 1013904242, 2773480762,
   1359893119, 2600822924, 528734635, 1541459225]

/-- Big-endian 8-byte rendering of a number (the padded bit length). -/
def be8 (n : Nat) : List Nat :=
  (List.range 8).map (fun i => (n >>> (8 * (7 - i))) % 256)

/-- SHA-256 message padding: `0x80`, zeros to 56 mod 64, then the
big-endian 64-bit bit length. -/
def sha256Pad (msg : List Nat) : List Nat :=
  msg ++ [0x80] ++ List.replicate ((119 - msg.length % 64) % 64) 0 ++ be8 (8 * msg.length)

/-- Split a byte list into 64-byte blocks. -/
def chunks64 (l : List Nat) : List (List Nat) :=
  if l.isEmpty then [] else l.take 64 :: chunks64 (l.drop 64)
termination_by l.length
decreasing_by
  simp only [List.length_drop]
  cases l with
  | nil => simp_all
  | cons a as => simp; omega

/-- Pack bytes into big-endian 32-bit words. -/
def toWords : List Nat → List Nat
  | b0 :: b1 :: b2 :: b3 :: rest => (((b0 * 256 + b1) * 256 + b2) * 256 + b3) :: toWords rest
  | _ => []

/-- Extend the 16 block words into the 64-entry message schedule. -/
def extendW (w : List Nat) : List Nat :=
  if _h : 64 ≤ w.length then w
  else
    extendW (w ++ [w32 (ssig1 (w.getD (w.length - 2) 0) + w.getD (w.length - 7) 0 +
                        ssig0 (w.getD (w.length - 15) 0) + w.getD (w.length - 16) 0)])
termination_by 64 - w.length
decreasing_by simp; omega

/-- One SHA-256 compression round on the 8-word working state. -/
def shaRound (k wt : Nat) (st : List Nat) : List Nat :=
  match st with
  | [a, b, c, d, e, f, g, h] =>
    let t1 := w32 (h + bsig1 e + shaCh e f g + k + wt)
    let t2 := w32 (bsig0 a + shaMaj a b c)
    [w32 (t1 + t2), a, b, c, w32 (d + t1), e, f, g]
  | st => st

/-- Compress one 64-byte block into the running hash state. -/
def shaBlock (h : List Nat) (block : List Nat) : List Nat :=
  let ws := extendW (toWords block)
  let fin := (shaK.zip ws).foldl (fun st kw => shaRound kw.1 kw.2 st) h
  (h.zip fin).map (fun p => w32 (p.1 + p.2))

/-- The SHA-256 digest of a byte list, read as a big-endian natural
number — exactly Python's `int(hashlib.sha256(b).hexdigest(), 16)`. -/
def sha256Nat (msg : List Nat) : Nat :=
  ((chunks64 (sha256Pad msg)).foldl shaBlock shaH0).foldl
    (fun acc x => acc * 4294967296 + x) 0

/-- UTF-8 bytes of one code point (Python `str.encode()`). -/
def utf8Bytes (c : Nat) : List Nat :=
  if c < 0x80 then [c]
  else if c < 0x800 then
    [0xC0 ||| (c >>> 6), 0x80 ||| (c &&& 0x3F)]
  else if c < 0x10000 then
    [0xE0 ||| (c >>> 12), 0x80 ||| ((c >>> 6) &&& 0x3F), 0x80 ||| (c &&& 0x3F)]
  else
    [0xF0 ||| (c >>> 18), 0x80 ||| ((c >>> 12) &&& 0x3F), 0x80 ||| ((c >>> 6) &&& 0x3F),
     0x80 ||| (c &&& 0x3F)]

/-- Python `s.encode()`: UTF-8 bytes of the string. -/
def strBytes (s : String) : List Nat :=
  (s.data.map (fun c => utf8Bytes c.toNat)).flatten

/-! ### `RuleMatcher` (`src/rule_engine/matcher.py`) -/

/-- Minimal model of Python `re.match(pattern, s)` used by the `regex`
operator: the pattern is scanned left to right; an unbalanced
parenthesis or a trailing backslash is a malformed pattern
(`Option.none`, modelling `re.error`); parentheses are zero-width group
markers and a backslash escapes the following character, so the scan
yields the literal characters the pattern must match, anchored at the
start of `s` (`re.match` semantics).  Quantifier and class
metacharacters are outside the modelled fragment (treated literally);
no claim exercises them. -/
def reScan : List Char → Nat → Option (List Char)
  | [], 0 => some []
  | [], _ + 1 => Option.none
  | '(' :: rest, d => reScan rest (d + 1)
  | ')' :: rest, d =>
    match d with
    | 0 => Option.none
    | d + 1 => reScan rest d
  | ['\\'], _ => Option.none
  | '\\' :: c :: rest, d => (reScan rest d).map (fun cs => c :: cs)
  | c :: rest, d => (reScan rest d).map (fun cs => c :: cs)

/-- Truthiness of `re.match(p, s)` (`some`), or `Option.none` for a
malformed pattern (`re.error`). -/
def reMatchB (p s : String) : Option Bool :=
  (reScan p.data 0).map (fun lit => lit.isPrefixOf s.data)

/-- `RuleMatcher._get_ab_bucket`: `int(sha256(player_id.encode()).hexdigest(), 16) % 100`. -/
def get_ab_bucket (player_id : String) : Nat :=
  sha256Nat (strBytes player_id) % 100

/-- Python substring test `sub in t` on char lists: `sub` occurs
contiguously in `t` (the empty string occurs in every string). -/
def isSubstr : List Char → List Char → Bool
  | sub, [] => sub.isEmpty
  | sub, c :: rest => sub.isPrefixOf (c :: rest) || isSubstr sub rest

/-- Python `x in e`: list membership by `==`, substring test on strings
(`TypeError` when `x` is not a string), key membership on dicts
(`TypeError` for unhashable `x`), `TypeError` on non-container `e`. -/
def pyIn (x e : Value) : Except RunErr Bool :=
  match e with
  | .list ys => .ok (ys.any (fun y => pyEq y x))
  | .str t =>
    match x with
    | .str sub => .ok (isSubstr sub.data t.data)
    | _ => .error .typeError
  | .dict ys =>
    match x with
    | .list _ => .error .typeError
    | .dict _ => .error .typeError
    | .str k => .ok (ys.any (fun p => p.1 == k))
    | _ => .ok false
  | _ => .error .typeError

/-- The `contains` operator body:
`isinstance(actual, (list, str)) and expected in actual`. -/
def pyContains (actual expected : Value) : Except RunErr Bool :=
  match actual with
  | .list ys => .ok (ys.any (fun y => pyEq y expected))
  | .str t =>
    match expected with
    | .str sub => .ok (isSubstr sub.data t.data)
    | _ => .error .typeError
  | _ => .ok false

/-- The `regex` operator body:
`isinstance(actual, str) and re.match(expected, actual)`. -/
def pyRegex (actual expected : Value) : Except RunErr Bool :=
  match actual with
  | .str s =>
    match expected with
    | .str p =>
      match reMatchB p s with
      | some b => .ok b
      | Option.none => .error .reError
    | _ => .error .typeError
  | _ => .ok false

/-- The four ordering operators, whose operands are float-coerced. -/
def orderingOp (op : String) : Bool :=
  op == "gt" || op == "gte" || op == "lt" || op == "lte"

/-- `RuleMatcher._apply_operator`: `None` actual fails every operator;
ordering operators coerce both operands to float and fail (without
raising) when coercion fails; the remaining operators dispatch on the
operator name, an unknown operator fails. -/
def apply_operator (op : String) (actual expected : Value) : Except RunErr Bool :=
  match actual with
  | Value.none => .ok false
  | actual =>
    if orderingOp op then
      match pyFloat actual, pyFloat expected with
      | some a, some e =>
        if op == "gt" then .ok (decide (e < a))
        else if op == "gte" then .ok (decide (e ≤ a))
        else if op == "lt" then .ok (decide (a < e))
        else .ok (decide (a ≤ e))
      | _, _ => .ok false
    else if op == "eq" then .ok (pyEq actual expected)
    else if op == "ne" then .ok (!pyEq actual expected)
    else if op == "in" then pyIn actual expected
    else if op == "not_in" then (pyIn actual expected).map (fun b => !b)
    else if op == "contains" then pyContains actual expected
    else if op == "regex" then pyRegex actual expected
    else .ok false

/-- The inner loop of `RuleMatcher._match_conditions` over the
operator/expected pairs of one condition dict. -/
def applyOps (ops : List (String × Value)) (pv : Value) : Except RunErr Bool :=
  match ops with
  | [] => .ok true
  | (op, expected) :: rest => do
    let b ← apply_operator op pv expected
    if b then applyOps rest pv else .ok false

/-- `RuleMatcher._match_conditions`: each condition field is read from
the player record (`None` when missing); dict conditions apply their
operators, any other condition value is a plain `!=` equality test. -/
def match_conditions (conditions : Record) (player_data : Record) : Except RunErr Bool :=
  match conditions with
  | [] => .ok true
  | (f, cond) :: rest =>
    let pv := Record.getD player_data f Value.none
    match cond with
    | .dict ops => do
      let b ← applyOps ops pv
      if b then match_conditions rest player_data else .ok false
    | c => if pyEq pv c then match_conditions rest player_data else .ok false

/-- `[d.lower() for d in days]` for a list of day values: a non-string
element has no `.lower` (`AttributeError`). -/
def lowerAll : List Value → Except RunErr (List String)
  | [] => .ok []
  | .str s :: rest => do
    let tail ← lowerAll rest
    .ok (asciiLower s :: tail)
  | _ :: _ => .error .attributeError

/-- `[d.lower() for d in days]` for an arbitrary `days` value: lists
lower each element, strings iterate their characters, dicts iterate
their keys, anything else truthy is not iterable (`TypeError`). -/
def lowerDays (days : Value) : Except RunErr (List String) :=
  match days with
  | .list ds => lowerAll ds
  | .str s => .ok (s.data.map (fun c => asciiLower (String.mk [c])))
  | .dict ds => .ok (ds.map (fun p => asciiLower p.1))
  | _ => .error .typeError

/-- `datetime.strptime(bound, "%H:%M").time()` for one window bound:
a non-string raises `TypeError`, an unparsable string `ValueError`. -/
def parseBound (v : Value) : Except RunErr (Nat × Nat) :=
  match v with
  | .str s =>
    match parseHHMM s with
    | some t => .ok t
    | Option.none => .error .valueError
  | _ => .error .typeError

/-- `RuleMatcher._within_time_window`: a falsy window is always active;
otherwise the weekday must belong to the lowered `days_of_week` when
that is truthy, the current time must be `≥ start_time` when that is
truthy, and `≤ end_time` when that is truthy.  (Note: with both bounds
present this is plain `start ≤ now ≤ end`; there is no wrap-around
branch here, unlike `models.TimeWindow.is_active`.) -/
def within_time_window (clock : Clock) (time_window : Value) : Except RunErr Bool :=
  if !truthy time_window then .ok true
  else
    match time_window with
    | .dict tw => do
      let current_day := asciiLower clock.weekday
      let days := Record.getD tw "days_of_week" Value.none
      let start := Record.getD tw "start_time" Value.none
      let stop := Record.getD tw "end_time" Value.none
      let dayPass ←
        if truthy days then do
          let ds ← lowerDays days
          pure (ds.contains current_day)
        else pure true
      if !dayPass then .ok false
      else do
        let startPass ←
          if truthy start then do
            let t ← parseBound start
            pure (decide (t.1 * 60 + t.2 ≤ clock.tod))
          else pure true
        if !startPass then .ok false
        else do
          let endPass ←
            if truthy stop then do
              let t ← parseBound stop
              pure (decide (clock.tod ≤ t.1 * 60 + t.2))
            else pure true
          .ok endPass
    | _ => .error .attributeError

/-- `RuleMatcher._within_ab_bucket`: a falsy spec always passes;
otherwise the bucket of the player id is computed first
(`player_id.encode()` needs a string), then the spec's
`.get('percentage', 0)` needs a dict (`AttributeError` on any other
truthy spec, e.g. the strings the loader accepts), and the bucket must
be `<` the percentage (`TypeError` when that is not a number). -/
def within_ab_bucket (ab_bucket : Value) (player_id : Value) : Except RunErr Bool :=
  if !truthy ab_bucket then .ok true
  else
    match player_id with
    | .str pid =>
      let bucket := get_ab_bucket pid
      match ab_bucket with
      | .dict d =>
        match (Record.getD d "percentage" (Value.int 0)).asNum? with
        | some q => .ok (decide ((bucket : Rat) < q))
        | Option.none => .error .typeError
      | _ => .error .attributeError
    | _ => .error .attributeError

/-- The fields `RuleMatcher._normalize_player_data` coerces. -/
def numeric_fields : List String := ["level", "total_spent", "days_since_last_purchase"]

/-- `RuleMatcher._normalize_player_data`: each known numeric field
present in the record is replaced by its `float(...)` value, or by
`0.0` when the coercion fails. -/
def normalize_player_data (player_data : Record) : Record :=
  numeric_fields.foldl
    (fun r f =>
      match Record.get r f with
      | some v =>
        Record.set r f
          (match pyFloat v with
           | some q => Value.float q
           | Option.none => Value.float 0)
      | Option.none => r)
    player_data

/-- The body of the rule loop in `RuleMatcher.evaluate`: a rule is kept
when it is enabled, its conditions match, its time window is active and
its A/B gate passes; any exception one of those checks raises
propagates. -/
def rule_applicable (clock : Clock) (player_data : Record) (rule : Record) :
    Except RunErr Bool :=
  if !truthy (Record.getD rule "enabled" (Value.bool true)) then .ok false
  else
    (match Record.getD rule "conditions" (Value.dict []) with
     | Value.dict cs => Except.ok cs
     | _ => Except.error RunErr.attributeError).bind (fun conds =>
      (match_conditions conds player_data).bind (fun c =>
        if !c then .ok false
        else
          (within_time_window clock (Record.getD rule "time_window" Value.none)).bind
            (fun t =>
              if !t then .ok false
              else
                within_ab_bucket (Record.getD rule "ab_bucket" Value.none)
                  (Record.getD player_data "player_id" (Value.str "")))))

/-- The rule loop of `RuleMatcher.evaluate`: the applicable rules, in
load order. -/
def applicable_rules (clock : Clock) (player_data : Record) :
    List Record → Except RunErr (List Record)
  | [] => .ok []
  | rule :: rest => do
    let keep ← rule_applicable clock player_data rule
    let tail ← applicable_rules clock player_data rest
    if keep then .ok (rule :: tail) else .ok tail

/-- `RuleMatcher.evaluate`: raises InvalidInput when the record is falsy
or lacks `player_id`; otherwise computes `normalized_data` (which the
source never uses afterwards - the raw record is what the rule loop
reads), collects the applicable rules, and returns `None` when there are
none, else the list of their promotions in load order. -/
def evaluate (clock : Clock) (rules : List Record) (player_data : Record) :
    Except EvalErr (Option (List Value)) :=
  if player_data.isEmpty || (Record.get player_data "player_id").isNone then
    .error EvalErr.invalidInput
  else
    let _normalized_data := normalize_player_data player_data
    match applicable_rules clock player_data rules with
    | .error e => .error (EvalErr.runtime e)
    | .ok apps =>
      if apps.isEmpty then .ok Option.none
      else .ok (some (apps.map (fun r => Record.getD r "promotion" Value.none)))

/-! ### `models.TimeWindow` (`src/rule_engine/models.py`) -/

/-- The `models.TimeWindow` dataclass fields read by `is_active`. -/
structure TimeWindow where
  start_time : Option String
  end_time : Option String
  days_of_week : Option (List String)
  timezone : String

/-- `models.TimeWindow.is_active`, with the current instant reduced to
its `strftime('%A')` weekday name and `strftime('%H:%M')` time-of-day
string: the weekday must belong to the lowered `days_of_week` when that
is truthy; with both bounds truthy, a same-day window (`start ≤ end`
lexicographically) requires `start ≤ now ≤ end` and an overnight window
requires `now ≥ start or now ≤ end`; otherwise the window is active. -/
def TimeWindow.is_active (tw : TimeWindow) (weekday currentHHMM : String) : Bool :=
  (match tw.days_of_week with
   | some ds => ds.isEmpty || (ds.map (fun d => asciiLower d)).contains (asciiLower weekday)
   | Option.none => true)
  &&
  (match tw.start_time, tw.end_time with
   | some s, some e =>
     if s == "" || e == "" then true
     else if strLe s e then strLe s currentHHMM && strLe currentHHMM e
     else strLe currentHHMM e || strLe s currentHHMM
   | _, _ => true)

/-! ### `RuleLoader` (`src/rule_engine/loader.py`) -/

/-- The operators `RuleLoader._validate_conditions` accepts. -/
def valid_operators : List String :=
  ["eq", "ne", "gt", "gte", "lt", "lte", "in", "not_in", "contains", "regex"]

/-- The weekday names `RuleLoader._validate_time_window` accepts. -/
def valid_days : List String :=
  ["monday", "tuesday", "wednesday", "thursday", "friday", "saturday", "sunday"]

/-- Python `isinstance(v, str)`. -/
def isStr : Value → Bool
  | .str _ => true
  | _ => false

/-- Python `isinstance(v, int)` (`bool` is a subclass of `int`). -/
def isInt : Value → Bool
  | .int _ => true
  | .bool _ => true
  | _ => false

/-- Python `isinstance(v, (int, float))`. -/
def isNum : Value → Bool
  | .int _ => true
  | .bool _ => true
  | .float _ => true
  | _ => false

/-- `RuleLoader._validate_conditions`: a dict condition must have
exactly one entry, its key must be a supported operator, and the
membership operators require a list value; non-dict conditions are
implicit equality and always pass.  (The unknown-field warning has no
semantic effect.) -/
def validate_conditions (conditions : Record) : Except RunErr Unit :=
  match conditions with
  | [] => .ok ()
  | (_, cond) :: rest =>
    match cond with
    | .dict ops =>
      if ops.length ≠ 1 then .error .valueError
      else
        let op := (ops.headD ("", Value.none)).1
        if !valid_operators.contains op then .error .valueError
        else
          let v := (ops.headD ("", Value.none)).2
          if (op == "in" || op == "not_in")
              && !(match v with | .list _ => true | _ => false) then
            .error .valueError
          else validate_conditions rest
    | _ => validate_conditions rest

/-- `RuleLoader._validate_promotion`: `id` and `type` must be present,
non-empty (after strip) strings; `amount`/`multiplier`/`duration_hours`
must be numbers when present. -/
def validate_promotion (promotion : Record) : Except RunErr Unit :=
  if (Record.get promotion "id").isNone || (Record.get promotion "type").isNone then
    .error .valueError
  else
    match Record.get promotion "id", Record.get promotion "type" with
    | some (Value.str i), some (Value.str t) =>
      if (trimChars i.data).isEmpty || (trimChars t.data).isEmpty then .error .valueError
      else if ["amount", "multiplier", "duration_hours"].all
          (fun f =>
            match Record.get promotion f with
            | some v => isNum v
            | Option.none => true) then .ok ()
      else .error .valueError
    | _, _ => .error .valueError

/-- One `start_time`/`end_time` check of `RuleLoader._validate_time_window`:
when present the bound must be a string in strptime `%H:%M` format. -/
def validate_time_field (tw : Record) (f : String) : Except RunErr Unit :=
  match Record.get tw f with
  | Option.none => .ok ()
  | some (Value.str s) => if (parseHHMM s).isSome then .ok () else .error .valueError
  | some _ => .error .valueError

/-- The `days_of_week` loop of `RuleLoader._validate_time_window`: each
entry's `.lower()` must be one of the seven day names (a non-string
entry raises `AttributeError`, which `load_rules` does not catch). -/
def validate_days_list : List Value → Except RunErr Unit
  | [] => .ok ()
  | .str d :: rest =>
    if valid_days.contains (asciiLower d) then validate_days_list rest
    else .error .valueError
  | _ :: _ => .error .attributeError

/-- `RuleLoader._validate_time_window`. -/
def validate_time_window (tw : Value) : Except RunErr Unit :=
  match tw with
  | .dict w => do
    validate_time_field w "start_time"
    validate_time_field w "end_time"
    match Record.get w "days_of_week" with
    | Option.none => .ok ()
    | some (Value.list ds) => validate_days_list ds
    | some _ => .error .valueError
  | _ => .error .valueError

/-- `RuleLoader._validate_rule`: the rule must be a dict containing
`id`, `priority`, `conditions`, `promotion`; `id` a non-empty string,
`priority` an int, `conditions` a valid condition dict, `promotion` a
valid promotion dict; then the `enabled`/`description` defaults are
added, and `weight` (number), `ab_bucket` (string!) and `time_window`
are checked when present.  The validated (defaulted) rule is returned. -/
def validate_rule (rule : Value) : Except RunErr Record :=
  match rule with
  | .dict r =>
    if ["id", "priority", "conditions", "promotion"].any
        (fun f => (Record.get r f).isNone) then
      .error .valueError
    else
      match Record.get r "id" with
      | some (Value.str i) =>
        if (trimChars i.data).isEmpty then .error .valueError
        else if !isInt (Record.getD r "priority" Value.none) then .error .valueError
        else
          match Record.get r "conditions" with
          | some (Value.dict cs) => do
            validate_conditions cs
            match Record.get r "promotion" with
            | some (Value.dict p) => do
              validate_promotion p
              let r := Record.setdefault r "enabled" (Value.bool true)
              let r := Record.setdefault r "description"
                (Value.str ("Promotion rule " ++ i))
              if (match Record.get r "weight" with
                  | some v => !isNum v
                  | Option.none => false) then .error .valueError
              else if (match Record.get r "ab_bucket" with
                  | some v => !isStr v
                  | Option.none => false) then .error .valueError
              else
                match Record.get r "time_window" with
                | some tw => do
                  validate_time_window tw
                  .ok r
                | Option.none => .ok r
            | some _ => .error .valueError
            | Option.none => .error .valueError
          | some _ => .error .valueError
          | Option.none => .error .valueError
      | some _ => .error .valueError
      | Option.none => .error .valueError
  | _ => .error .valueError

/-- The per-rule try/except of `RuleLoader.load_rules`: a `ValueError`
from validation drops the rule and loading continues (partial-success
policy); any other exception propagates. -/
def load_loop : List Value → Except RunErr (List Record)
  | [] => .ok []
  | r :: rest =>
    match validate_rule r with
    | .ok vr => do
      let tail ← load_loop rest
      .ok (vr :: tail)
    | .error RunErr.valueError => load_loop rest
    | .error e => .error e

/-- `RuleLoader.load_rules` after the YAML parse (lines 36-57 of
`loader.py`): a falsy document yields no rules; the document's `rules`
entry (default `[]`) must be a list, else `ValueError("Rules must be a
list")` propagates; each candidate rule is validated independently by
`load_loop`. -/
def load_rules_data (data : Value) : Except RunErr (List Record) :=
  if !truthy data then .ok []
  else
    match data with
    | .dict d =>
      match Record.getD d "rules" (Value.list []) with
      | .list rs => load_loop rs
      | _ => .error .valueError
    | _ => .error .attributeError

/-! ### Concrete sample rules and records used by the claim theorems -/

/-- A fixed evaluation instant (a Monday noon); rules without a time
window never read it. -/
def clk0 : Clock := ⟨"Monday", 12, 0⟩

/-- A promotion payload. -/
def promo1 : Value := Value.dict [("id", Value.str "promo1"), ("type", Value.str "bonus_credits")]

/-- A player record whose `level` is a non-coercible string. -/
def pdAbc : Record := [("player_id", Value.str "p1"), ("level", Value.str "abc")]

/-- A rule whose only condition is the plain equality `level: "abc"`. -/
def ruleLevelAbc : Record :=
  [("id", Value.str "r1"), ("priority", Value.int 1),
   ("conditions", Value.dict [("level", Value.str "abc")]),
   ("promotion", promo1)]

/-- A minimal player record. -/
def pdP : Record := [("player_id", Value.str "p1")]

/-- A loader-shaped rule with a (string) `ab_bucket`, as the loader
accepts it. -/
def ruleAB : Value :=
  Value.dict
    [("id", Value.str "r2"), ("priority", Value.int 1),
     ("conditions", Value.dict []),
     ("promotion", Value.dict [("id", Value.str "p2"), ("type", Value.str "bonus_credits")]),
     ("ab_bucket", Value.str "grp")]

/-- `ruleAB` as `validate_rule` returns it (defaults appended). -/
def ruleABv : Record :=
  [("id", Value.str "r2"), ("priority", Value.int 1),
   ("conditions", Value.dict []),
   ("promotion", Value.dict [("id", Value.str "p2"), ("type", Value.str "bonus_credits")]),
   ("ab_bucket", Value.str "grp"),
   ("enabled", Value.bool true),
   ("description", Value.str "Promotion rule r2")]

/-- `ruleAB` with `enabled: false` set, still loader-valid. -/
def ruleABoff : Value :=
  Value.dict
    [("id", Value.str "r2"), ("priority", Value.int 1),
     ("conditions", Value.dict []),
     ("promotion", Value.dict [("id", Value.str "p2"), ("type", Value.str "bonus_credits")]),
     ("ab_bucket", Value.str "grp"),
     ("enabled", Value.bool false)]

/-- `ruleABoff` as `validate_rule` returns it. -/
def ruleABoffV : Record :=
  [("id", Value.str "r2"), ("priority", Value.int 1),
   ("conditions", Value.dict []),
   ("promotion", Value.dict [("id", Value.str "p2"), ("type", Value.str "bonus_credits")]),
   ("ab_bucket", Value.str "grp"),
   ("enabled", Value.bool false),
   ("description", Value.str "Promotion rule r2")]

/-- A loader-valid rule with a malformed `regex` condition pattern. -/
def ruleRegexBad : Value :=
  Value.dict
    [("id", Value.str "r4"), ("priority", Value.int 1),
     ("conditions", Value.dict [("player_id", Value.dict [("regex", Value.str "(")])]),
     ("promotion", Value.dict [("id", Value.str "p4"), ("type", Value.str "bonus_credits")])]

/-- `ruleRegexBad` as `validate_rule` returns it. -/
def ruleRegexBadV : Record :=
  [("id", Value.str "r4"), ("priority", Value.int 1),
   ("conditions", Value.dict [("player_id", Value.dict [("regex", Value.str "(")])]),
   ("promotion", Value.dict [("id", Value.str "p4"), ("type", Value.str "bonus_credits")]),
   ("enabled", Value.bool true),
   ("description", Value.str "Promotion rule r4")]

/-- A rule dict missing the mandatory `promotion` field. -/
def ruleNoPromo : Record :=
  [("id", Value.str "r9"), ("priority", Value.int 1), ("conditions", Value.dict [])]

/-- A simple always-matching rule (no window, no bucket). -/
def ruleSimple : Record :=
  [("id", Value.str "r5"), ("priority", Value.int 1),
   ("conditions", Value.dict [("level", Value.dict [("gte", Value.int 1)])]),
   ("promotion", promo1)]

/-- A player record matching `ruleSimple`. -/
def pdLevel5 : Record := [("player_id", Value.str "p1"), ("level", Value.int 5)]

/-- The boolean `rule_applicable ... = .ok true` test used to phrase the
aggregation policy as a filter. -/
def isOkTrue : Except RunErr Bool → Bool
  | .ok true => true
  | _ => false

/-! ## Helper lemmas -/

/-- The bucket is a residue mod 100. -/
theorem bucket_lt_100 (pid : String) : get_ab_bucket pid < 100 :=
  Nat.mod_lt _ (by norm_num)

/-- A rule whose `enabled` entry is falsy is skipped by the rule loop
before any other check. -/
theorem rule_applicable_disabled (clock : Clock) (pd rule : Record)
    (h : truthy (Record.getD rule "enabled" (Value.bool true)) = false) :
    rule_applicable clock pd rule = .ok false := by
  unfold rule_applicable
  simp [h]

/-- Unfolding of the rule loop at a cons cell. -/
theorem applicable_rules_cons (clock : Clock) (pd r : Record) (rest : List Record) :
    applicable_rules clock pd (r :: rest) =
      (rule_applicable clock pd r).bind (fun keep =>
        (applicable_rules clock pd rest).bind (fun tail =>
          if keep then Except.ok (r :: tail) else Except.ok tail)) := rfl

/-- Dropping the disabled rules from the rule list does not change the
rule loop's outcome. -/
theorem applicable_rules_filter_enabled (clock : Clock) (pd : Record) (rules : List Record) :
    applicable_rules clock pd
        (rules.filter (fun r => truthy (Record.getD r "enabled" (Value.bool true)))) =
      applicable_rules clock pd rules := by
  induction rules with
  | nil => rfl
  | cons r rest ih =>
    by_cases h : truthy (Record.getD r "enabled" (Value.bool true)) = true
    · rw [List.filter_cons, if_pos (by simpa using h), applicable_rules_cons,
        applicable_rules_cons, ih]
    · have hb : truthy (Record.getD r "enabled" (Value.bool true)) = false := by
        simpa using h
      rw [List.filter_cons, if_neg (by rw [hb]; exact Bool.false_ne_true), ih,
        applicable_rules_cons, rule_applicable_disabled clock pd r hb]
      cases har : applicable_rules clock pd rest <;> rfl

/-- Reduction of `Except.bind` at an `ok` cell. -/
theorem except_bind_ok {ε α β : Type} (a : α) (f : α → Except ε β) :
    (Except.ok a : Except ε α).bind f = f a := rfl

/-- Reduction of `Except.bind` at an `error` cell. -/
theorem except_bind_error {ε α β : Type} (e : ε) (f : α → Except ε β) :
    (Except.error e : Except ε α).bind f = Except.error e := rfl

/-- For an ordering operator and a non-`None` actual value, the operator
body is the float coercion of both operands followed by the comparison,
with a failed coercion giving false. -/
theorem apply_operator_ordering_shape (op : String) (a e : Value)
    (hop : orderingOp op = true) (hne : a ≠ Value.none) :
    apply_operator op a e =
      (match pyFloat a, pyFloat e with
       | some x, some y =>
         Except.ok
           (if op == "gt" then decide (y < x)
            else if op == "gte" then decide (y ≤ x)
            else if op == "lt" then decide (x < y)
            else decide (x ≤ y))
       | _, _ => Except.ok false) := by
  cases a <;>
    first
      | exact absurd rfl hne
      | (simp only [apply_operator, hop, if_pos]
         cases hpa : pyFloat e <;> split <;> simp_all
         all_goals (split_ifs <;> rfl))

/-- Ordering operators never raise. -/
theorem apply_operator_ordering_total (op : String) (a e : Value)
    (hop : orderingOp op = true) : ∃ b, apply_operator op a e = .ok b := by
  by_cases hne : a = Value.none
  · exact ⟨false, hne ▸ rfl⟩
  · rw [apply_operator_ordering_shape op a e hop hne]
    cases hpa : pyFloat a <;> cases hpe : pyFloat e <;> exact ⟨_, rfl⟩

/-- The equality operator never raises. -/
theorem apply_operator_eq_total (a e : Value) :
    ∃ b, apply_operator "eq" a e = .ok b := by
  cases a <;> exact ⟨_, rfl⟩

/-- The non-equality operator never raises. -/
theorem apply_operator_ne_total (a e : Value) :
    ∃ b, apply_operator "ne" a e = .ok b := by
  cases a <;> exact ⟨_, rfl⟩

/-- Unfolding of the applicability check into its four gates. -/
theorem rule_applicable_eq (clock : Clock) (pd rule : Record) :
    rule_applicable clock pd rule =
      (if !truthy (Record.getD rule "enabled" (Value.bool true)) then Except.ok false
       else
        (match Record.getD rule "conditions" (Value.dict []) with
         | Value.dict cs => Except.ok cs
         | _ => Except.error RunErr.attributeError).bind (fun conds =>
          (match_conditions conds pd).bind (fun c =>
            if !c then Except.ok false
            else
              (within_time_window clock (Record.getD rule "time_window" Value.none)).bind
                (fun t =>
                  if !t then Except.ok false
                  else
                    within_ab_bucket (Record.getD rule "ab_bucket" Value.none)
                      (Record.getD pd "player_id" (Value.str "")))))) := rfl

/-- The rule loop, when it returns without raising, returns exactly the
rules whose applicability check succeeded with `true`, in order. -/
theorem applicable_rules_ok_filter (clock : Clock) (pd : Record) :
    ∀ (rules : List Record) (apps : List Record),
      applicable_rules clock pd rules = .ok apps →
      apps = rules.filter (fun r => isOkTrue (rule_applicable clock pd r)) := by
  intro rules
  induction rules with
  | nil =>
    intro apps h
    cases h
    rfl
  | cons r rest ih =>
    intro apps h
    rw [applicable_rules_cons] at h
    cases hra : rule_applicable clock pd r with
    | error e =>
      rw [hra, except_bind_error] at h
      exact Except.noConfusion h
    | ok keep =>
      rw [hra, except_bind_ok] at h
      cases har2 : applicable_rules clock pd rest with
      | error e =>
        rw [har2, except_bind_error] at h
        exact Except.noConfusion h
      | ok tail =>
        rw [har2, except_bind_ok] at h
        cases keep with
        | true =>
          rw [if_pos rfl] at h
          cases h
          have hcond : isOkTrue (rule_applicable clock pd r) = true := by
            rw [hra]
            rfl
          rw [List.filter_cons]
          simp only [hcond, if_true]
          rw [ih _ har2]
        | false =>
          rw [if_neg Bool.false_ne_true] at h
          cases h
          have hcond : isOkTrue (rule_applicable clock pd r) = false := by
            rw [hra]
            rfl
          rw [List.filter_cons]
          simp only [hcond, Bool.false_eq_true, if_false]
          exact ih _ har2

/-- Validation of a dict rule lacking `promotion` fails with the
ValueError the loader's per-rule try/except catches. -/
theorem validate_rule_missing_promotion (x : Record)
    (h : Record.get x "promotion" = Option.none) :
    validate_rule (Value.dict x) = .error RunErr.valueError := by
  have hany : (["id", "priority", "conditions", "promotion"].any
      (fun f => (Record.get x f).isNone)) = true := by
    simp [List.any_cons, h]
  simp [validate_rule, hany]

/-- Unfolding of the per-rule loop at a cons cell. -/
theorem load_loop_cons (r : Value) (rest : List Value) :
    load_loop (r :: rest) =
      (match validate_rule r with
       | .ok vr => (load_loop rest).bind (fun tail => Except.ok (vr :: tail))
       | .error RunErr.valueError => load_loop rest
       | .error e => .error e) := rfl

/-- The per-rule loop keeps a rule that validates. -/
theorem load_loop_cons_ok (r : Value) (vr : Record) (rest : List Value)
    (h : validate_rule r = .ok vr) :
    load_loop (r :: rest) = (load_loop rest).bind (fun tail => Except.ok (vr :: tail)) := by
  rw [load_loop_cons, h]

/-- The per-rule loop drops a rule whose validation fails with
ValueError and continues. -/
theorem load_loop_cons_bad (r : Value) (rest : List Value)
    (h : validate_rule r = .error RunErr.valueError) :
    load_loop (r :: rest) = load_loop rest := by
  rw [load_loop_cons, h]

/-! ## Claim theorems -/

/-- C10: for every rule with a falsy `enabled` flag (in particular
`enabled = false`), and for every input record and rule set containing
that rule, the rule never contributes its promotion to any evaluation
result: evaluation over any rule list coincides with evaluation over
the list with all disabled rules removed. -/
theorem C10_disabled_rules_never_contribute (clock : Clock) (rules : List Record)
    (player_data : Record) :
    evaluate clock rules player_data =
      evaluate clock
        (rules.filter (fun r => truthy (Record.getD r "enabled" (Value.bool true))))
        player_data := by
  unfold evaluate
  rw [applicable_rules_filter_enabled]

/-- C7: the bucket of every identifier lies in `[0, 100)`; the gate with
percentage 0 admits nobody, the gate with percentage 100 admits
everybody, and a missing bucket spec admits everybody.  (Stability
across repeated calls is definitional: `get_ab_bucket` is a pure
function of the identifier.) -/
theorem C7_bucket_and_gate :
    (∀ pid : String, get_ab_bucket pid < 100) ∧
    (∀ pid : String,
      within_ab_bucket (Value.dict [("percentage", Value.int 0)]) (Value.str pid) =
        .ok false) ∧
    (∀ pid : String,
      within_ab_bucket (Value.dict [("percentage", Value.int 100)]) (Value.str pid) =
        .ok true) ∧
    (∀ pid : String, within_ab_bucket Value.none (Value.str pid) = .ok true) := by
  refine ⟨bucket_lt_100, fun pid => ?_, fun pid => ?_, fun pid => rfl⟩
  · simp [within_ab_bucket, truthy, Record.getD, Record.get, Value.asNum?]
  · simp [within_ab_bucket, truthy, Record.getD, Record.get, Value.asNum?]
    exact bucket_lt_100 pid

/-- C9: `gt` at equal operands is false and `gte` is true; a `None`
actual value fails every operator; the ordering operators resolve a
failed float coercion of either operand to false, and never raise. -/
theorem C9_operator_contract :
    apply_operator "gt" (Value.int 5) (Value.int 5) = .ok false ∧
    apply_operator "gte" (Value.int 5) (Value.int 5) = .ok true ∧
    (∀ op e, apply_operator op Value.none e = .ok false) ∧
    (∀ op a e, orderingOp op = true →
      pyFloat a = Option.none ∨ pyFloat e = Option.none →
      apply_operator op a e = .ok false) ∧
    (∀ op a e, orderingOp op = true → ∃ b, apply_operator op a e = .ok b) := by
  refine ⟨rfl, rfl, fun op e => rfl, fun op a e hop hc => ?_,
    apply_operator_ordering_total⟩
  by_cases hne : a = Value.none
  · subst hne; rfl
  · rw [apply_operator_ordering_shape op a e hop hne]
    rcases hc with hc | hc <;> rw [hc] <;>
      cases hpe : pyFloat e <;> cases hpa : pyFloat a <;> simp

/-- Witness for C9: a concrete ordering comparison whose left operand
fails coercion resolves to false. -/
theorem C9_witness :
    apply_operator "gt" (Value.str "x") (Value.int 3) = .ok false :=
  C9_operator_contract.2.2.2.1 "gt" (Value.str "x") (Value.int 3) rfl (Or.inl rfl)

/-- C6: evaluation raises the matcher's own InvalidInput error exactly
when the player record lacks `player_id` (an empty record lacks it);
when it raises, no result is produced. -/
theorem C6_invalid_input_iff (clock : Clock) (rules : List Record) (player_data : Record) :
    evaluate clock rules player_data = .error EvalErr.invalidInput ↔
      Record.get player_data "player_id" = Option.none := by
  unfold evaluate
  rcases hg : (player_data.isEmpty || (Record.get player_data "player_id").isNone) with _ | _
  · have hne : ¬ Record.get player_data "player_id" = Option.none := by
      simp only [Bool.or_eq_false_iff] at hg
      exact fun h => by simp [h] at hg
    simp only [hg, Bool.false_eq_true, if_false]
    cases har : applicable_rules clock player_data rules with
    | error e => simp [har, hne]
    | ok apps => cases h : apps.isEmpty <;> simp [har, h, hne]
  · have hnone : Record.get player_data "player_id" = Option.none := by
      simp only [Bool.or_eq_true] at hg
      rcases hg with hg | hg
      · have : player_data = [] := List.isEmpty_iff.mp hg
        simp [this, Record.get]
      · exact Option.isNone_iff_eq_none.mp hg
    simp [hg, hnone]

/-- C1: the matcher computes `normalized_data` once per evaluation but
then passes the raw record to condition matching, so condition
evaluation observes the raw values: the record with the non-coercible
`level: "abc"` still matches the plain condition `level: "abc"` and
wins its promotion, while the same condition is false against the
normalized record (whose `level` is `0.0`). -/
theorem C1_normalization_not_used :
    evaluate clk0 [ruleLevelAbc] pdAbc = .ok (some [promo1]) ∧
    Record.get (normalize_player_data pdAbc) "level" = some (Value.float 0) ∧
    match_conditions [("level", Value.str "abc")] (normalize_player_data pdAbc) =
      .ok false :=
  ⟨rfl, rfl, rfl⟩

/-- C3 counterexample: a rule the loader validates in full, whose
`regex` condition pattern `"("` is malformed, makes `evaluate` raise
`re.error` for a record that carries the identifier field — the anomaly
does not resolve to "condition not satisfied". -/
theorem C3_counterexample :
    validate_rule ruleRegexBad = .ok ruleRegexBadV ∧
    evaluate clk0 [ruleRegexBadV] pdP = .error (EvalErr.runtime RunErr.reError) :=
  ⟨rfl, rfl⟩

/-- C3 (amended): a `None` actual value (missing field) fails every
operator without raising, and the equality and ordering operators never
raise (wrongly-typed operands of ordering operators resolve to false);
but a malformed regex pattern raises `re.error` and a non-container
expected value of a membership operator raises `TypeError`, and such
exceptions escape `evaluate` (see the counterexample). -/
theorem C3_anomaly_policy :
    (∀ op e, apply_operator op Value.none e = .ok false) ∧
    (∀ op a e, orderingOp op = true ∨ op = "eq" ∨ op = "ne" →
      ∃ b, apply_operator op a e = .ok b) ∧
    apply_operator "regex" (Value.str "x") (Value.str "(") = .error RunErr.reError ∧
    apply_operator "in" (Value.int 1) (Value.int 5) = .error RunErr.typeError := by
  refine ⟨fun op e => rfl, fun op a e h => ?_, rfl, rfl⟩
  rcases h with h | h | h
  · exact apply_operator_ordering_total op a e h
  · exact h ▸ apply_operator_eq_total a e
  · exact h ▸ apply_operator_ne_total a e

/-- Witness for C3: the safe-operator clause at a concrete wrongly-typed
ordering comparison. -/
theorem C3_witness :
    ∃ b, apply_operator "lt" (Value.str "zzz") (Value.int 2) = .ok b :=
  C3_anomaly_policy.2.1 "lt" (Value.str "zzz") (Value.int 2) (Or.inl rfl)

/-- C4 counterexample: a rule set the loader accepts in full (its one
rule carries the string `ab_bucket` the loader demands) makes
`evaluate` raise AttributeError for a record with the identifier field,
rather than returning a promotion list or the no-match outcome. -/
theorem C4_counterexample :
    validate_rule ruleAB = .ok ruleABv ∧
    evaluate clk0 [ruleABv] pdP = .error (EvalErr.runtime RunErr.attributeError) :=
  ⟨rfl, rfl⟩

/-- C4 (amended): whenever `evaluate` returns without raising, the
result is the promotion of every applicable rule as a list in the
rules' original load order, and the explicit no-match outcome (`None`)
when zero rules are applicable. -/
theorem C4_aggregation_in_load_order (clock : Clock) (rules : List Record)
    (player_data : Record) (res : Option (List Value))
    (h : evaluate clock rules player_data = .ok res) :
    res =
      (let promos :=
        (rules.filter (fun r => isOkTrue (rule_applicable clock player_data r))).map
          (fun r => Record.getD r "promotion" Value.none)
       if promos.isEmpty then Option.none else some promos) := by
  unfold evaluate at h
  rcases hg : (player_data.isEmpty || (Record.get player_data "player_id").isNone) with _ | _
  · rw [hg] at h
    simp only [Bool.false_eq_true, if_false] at h
    cases har : applicable_rules clock player_data rules with
    | error e =>
      rw [har] at h
      exact Except.noConfusion h
    | ok apps =>
      rw [har] at h
      rw [← applicable_rules_ok_filter clock player_data rules apps har]
      cases apps with
      | nil => cases h; rfl
      | cons a as => cases h; rfl
  · rw [hg] at h
    simp only [if_true] at h
    exact Except.noConfusion h

/-- Witness for C4: a concrete successful evaluation instantiating the
aggregation theorem. -/
theorem C4_witness :
    some [promo1] =
      (let promos :=
        ([ruleSimple].filter (fun r => isOkTrue (rule_applicable clk0 pdLevel5 r))).map
          (fun r => Record.getD r "promotion" Value.none)
       if promos.isEmpty then Option.none else some promos) :=
  C4_aggregation_in_load_order clk0 [ruleSimple] pdLevel5 (some [promo1]) rfl

/-- C5 counterexample: the claim quantifies over every loader-validated
rule with a non-empty `ab_bucket` whose conditions and time window pass,
but a disabled such rule is skipped before the gate: evaluation returns
the no-match outcome instead of raising AttributeError. -/
theorem C5_counterexample :
    validate_rule ruleABoff = .ok ruleABoffV ∧
    Record.get ruleABoffV "ab_bucket" = some (Value.str "grp") ∧
    match_conditions [] pdP = .ok true ∧
    within_time_window clk0 (Record.getD ruleABoffV "time_window" Value.none) = .ok true ∧
    evaluate clk0 [ruleABoffV] pdP = .ok Option.none :=
  ⟨rfl, rfl, rfl, rfl, rfl⟩

/-- C5 (amended): the loader accepts a rule's `ab_bucket` only when it
is a string, while the matcher's gate calls `.get('percentage', 0)` on
it; hence every **enabled** rule that passed loader validation with a
non-empty string `ab_bucket`, whose conditions and time window pass for
an input record carrying a string `player_id`, makes `evaluate` raise
AttributeError instead of applying the gate. -/
theorem C5_loader_matcher_ab_mismatch (clock : Clock) (rule : Value) (vr pd : Record)
    (s pid : String) (cs : Record)
    (hv : validate_rule rule = .ok vr)
    (hab : Record.get vr "ab_bucket" = some (Value.str s)) (hs : s ≠ "")
    (hen : truthy (Record.getD vr "enabled" (Value.bool true)) = true)
    (hcs : Record.getD vr "conditions" (Value.dict []) = Value.dict cs)
    (hc : match_conditions cs pd = .ok true)
    (ht : within_time_window clock (Record.getD vr "time_window" Value.none) = .ok true)
    (hpid : Record.get pd "player_id" = some (Value.str pid)) :
    evaluate clock [vr] pd = .error (EvalErr.runtime RunErr.attributeError) := by
  have hgd : Record.getD vr "ab_bucket" Value.none = Value.str s := by
    rw [Record.getD, hab]
    rfl
  have hgp : Record.getD pd "player_id" (Value.str "") = Value.str pid := by
    rw [Record.getD, hpid]
    rfl
  have hab' : within_ab_bucket (Record.getD vr "ab_bucket" Value.none)
      (Record.getD pd "player_id" (Value.str "")) = .error RunErr.attributeError := by
    rw [hgd, hgp]
    unfold within_ab_bucket
    simp [truthy, hs]
  have hra : rule_applicable clock pd vr = .error RunErr.attributeError := by
    rw [rule_applicable_eq, hen]
    simp only [Bool.not_true, Bool.false_eq_true, if_false, hcs, except_bind_ok, hc, ht]
    exact hab'
  have hloop : applicable_rules clock pd [vr] = .error RunErr.attributeError := by
    rw [applicable_rules_cons, hra, except_bind_error]
  have hpe : pd.isEmpty = false := by
    cases pd with
    | nil => exact absurd hpid (by simp [Record.get])
    | cons a l => rfl
  have hne : (Record.get pd "player_id").isNone = false := by
    rw [hpid]
    rfl
  unfold evaluate
  rw [hpe, hne, hloop]
  rfl

/-- Witness for C5: the mismatch theorem at the concrete loader-valid
rule `ruleAB`. -/
theorem C5_witness :
    evaluate clk0 [ruleABv] pdP = .error (EvalErr.runtime RunErr.attributeError) :=
  C5_loader_matcher_ab_mismatch clk0 ruleAB ruleABv pdP "grp" "p1" [] rfl rfl
    (by decide) rfl rfl rfl rfl rfl

/-- C8: a rules document with one valid rule and one dict rule missing
the mandatory `promotion` field loads to exactly the one validated
rule, in either document order; the invalid rule is dropped and no
exception propagates. -/
theorem C8_loader_partial_success (r1 : Value) (vr1 : Record) (x : Record)
    (h1 : validate_rule r1 = .ok vr1)
    (hx : Record.get x "promotion" = Option.none) :
    load_rules_data (Value.dict [("rules", Value.list [r1, Value.dict x])]) = .ok [vr1] ∧
    load_rules_data (Value.dict [("rules", Value.list [Value.dict x, r1])]) = .ok [vr1] := by
  have hbad := validate_rule_missing_promotion x hx
  constructor
  · show load_loop [r1, Value.dict x] = .ok [vr1]
    rw [load_loop_cons_ok r1 vr1 _ h1, load_loop_cons_bad _ _ hbad]
    rfl
  · show load_loop [Value.dict x, r1] = .ok [vr1]
    rw [load_loop_cons_bad _ _ hbad, load_loop_cons_ok r1 vr1 _ h1]
    rfl

/-- On ASCII digit characters, character equality is digit equality. -/
theorem digit_char_eq_iff (a b : Nat) (ha : a < 10) (hb : b < 10) :
    (Char.ofNat (48 + a) = Char.ofNat (48 + b)) ↔ a = b := by
  have h : ∀ x : Fin 10, ∀ y : Fin 10,
      ((Char.ofNat (48 + x.val) = Char.ofNat (48 + y.val)) ↔ x.val = y.val) := by decide
  exact h ⟨a, ha⟩ ⟨b, hb⟩

/-- On ASCII digit characters, character order is digit order. -/
theorem digit_char_lt_iff (a b : Nat) (ha : a < 10) (hb : b < 10) :
    (Char.ofNat (48 + a) < Char.ofNat (48 + b)) ↔ a < b := by
  have h : ∀ x : Fin 10, ∀ y : Fin 10,
      ((Char.ofNat (48 + x.val) < Char.ofNat (48 + y.val)) ↔ x.val < y.val) := by decide
  exact h ⟨a, ha⟩ ⟨b, hb⟩

/-- The spec's safety remark made precise: on zero-padded `HH:MM`
renderings of valid times, lexicographic string comparison agrees with
time-of-day order (minutes since midnight). -/
theorem strLe_fmtHHMM (h m h' m' : Nat) (hh : h < 100) (hm : m < 60)
    (hh' : h' < 100) (hm' : m' < 60) :
    strLe (fmtHHMM h m) (fmtHHMM h' m') = decide (h * 60 + m ≤ h' * 60 + m') := by
  have e1 := digit_char_eq_iff (h / 10) (h' / 10) (by omega) (by omega)
  have l1 := digit_char_lt_iff (h / 10) (h' / 10) (by omega) (by omega)
  have e2 := digit_char_eq_iff (h % 10) (h' % 10) (by omega) (by omega)
  have l2 := digit_char_lt_iff (h % 10) (h' % 10) (by omega) (by omega)
  have e3 := digit_char_eq_iff (m / 10) (m' / 10) (by omega) (by omega)
  have l3 := digit_char_lt_iff (m / 10) (m' / 10) (by omega) (by omega)
  have e4 := digit_char_eq_iff (m % 10) (m' % 10) (by omega) (by omega)
  have l4 := digit_char_lt_iff (m % 10) (m' % 10) (by omega) (by omega)
  show charListLe
      [Char.ofNat (48 + h / 10), Char.ofNat (48 + h % 10), ':',
       Char.ofNat (48 + m / 10), Char.ofNat (48 + m % 10)]
      [Char.ofNat (48 + h' / 10), Char.ofNat (48 + h' % 10), ':',
       Char.ofNat (48 + m' / 10), Char.ofNat (48 + m' % 10)] =
    decide (h * 60 + m ≤ h' * 60 + m')
  simp only [charListLe]
  by_cases q1 : h / 10 = h' / 10
  · rw [if_pos (e1.mpr q1)]
    by_cases q2 : h % 10 = h' % 10
    · rw [if_pos (e2.mpr q2), if_pos trivial]
      by_cases q3 : m / 10 = m' / 10
      · rw [if_pos (e3.mpr q3)]
        by_cases q4 : m % 10 = m' % 10
        · rw [if_pos (e4.mpr q4)]
          symm
          rw [decide_eq_true_eq]
          omega
        · rw [if_neg (fun hc => q4 (e4.mp hc))]
          simp only [l4]
          exact decide_eq_decide.mpr (by omega)
      · rw [if_neg (fun hc => q3 (e3.mp hc))]
        simp only [l3]
        exact decide_eq_decide.mpr (by omega)
    · rw [if_neg (fun hc => q2 (e2.mp hc))]
      simp only [l2]
      exact decide_eq_decide.mpr (by omega)
  · rw [if_neg (fun hc => q1 (e1.mp hc))]
    simp only [l1]
    exact decide_eq_decide.mpr (by omega)

/-- Witness for C8: the partial-success theorem at a concrete document. -/
theorem C8_witness :
    load_rules_data (Value.dict [("rules", Value.list [ruleAB, Value.dict ruleNoPromo])]) =
        .ok [ruleABv] ∧
    load_rules_data (Value.dict [("rules", Value.list [Value.dict ruleNoPromo, ruleAB])]) =
        .ok [ruleABv] :=
  C8_loader_partial_success ruleAB ruleABv ruleNoPromo rfl rfl

set_option maxRecDepth 8000 in
/-- C2: `models.TimeWindow.is_active` implements exactly the claimed
semantics — for windows with both bounds (and no weekday restriction),
a same-day window (`start ≤ end`) is active exactly when
`start ≤ now ≤ end` and a wrap-around window (`start > end`) exactly
when `now ≥ start` or `now ≤ end`, all in minutes since midnight; in
particular the window 22:00-02:00 is active at 23:30 and 01:00 and
inactive at 10:00.  The matcher's own gate
`RuleMatcher._within_time_window`, however, treats both bounds as a
same-day interval, so it reports the wrap-around window 22:00-02:00 as
inactive at 23:30 (the divergence that makes this claim a code bug). -/
theorem C2_wraparound_window (wd : String) (sh sm eh em ch cm : Nat)
    (hsh : sh < 24) (hsm : sm < 60) (heh : eh < 24) (hem : em < 60)
    (hch : ch < 24) (hcm : cm < 60) :
    (TimeWindow.is_active
        ⟨some (fmtHHMM sh sm), some (fmtHHMM eh em), Option.none, "UTC"⟩ wd
        (fmtHHMM ch cm) =
      (if sh * 60 + sm ≤ eh * 60 + em then
        decide (sh * 60 + sm ≤ ch * 60 + cm ∧ ch * 60 + cm ≤ eh * 60 + em)
       else
        decide (sh * 60 + sm ≤ ch * 60 + cm ∨ ch * 60 + cm ≤ eh * 60 + em))) ∧
    TimeWindow.is_active ⟨some "22:00", some "02:00", Option.none, "UTC"⟩ wd "23:30" =
      true ∧
    TimeWindow.is_active ⟨some "22:00", some "02:00", Option.none, "UTC"⟩ wd "01:00" =
      true ∧
    TimeWindow.is_active ⟨some "22:00", some "02:00", Option.none, "UTC"⟩ wd "10:00" =
      false ∧
    within_time_window ⟨wd, 23, 30⟩
        (Value.dict [("start_time", Value.str "22:00"), ("end_time", Value.str "02:00")]) =
      .ok false := by
  refine ⟨?_, rfl, rfl, rfl, rfl⟩
  have hne : ((fmtHHMM sh sm == "") || (fmtHHMM eh em == "")) = false := rfl
  have key : TimeWindow.is_active
      ⟨some (fmtHHMM sh sm), some (fmtHHMM eh em), Option.none, "UTC"⟩ wd
      (fmtHHMM ch cm) =
      (if strLe (fmtHHMM sh sm) (fmtHHMM eh em) then
        strLe (fmtHHMM sh sm) (fmtHHMM ch cm) && strLe (fmtHHMM ch cm) (fmtHHMM eh em)
       else
        strLe (fmtHHMM ch cm) (fmtHHMM eh em) || strLe (fmtHHMM sh sm) (fmtHHMM ch cm)) := by
    show (true &&
      (if ((fmtHHMM sh sm == "") || (fmtHHMM eh em == "")) = true then true
       else
        if strLe (fmtHHMM sh sm) (fmtHHMM eh em) = true then
          strLe (fmtHHMM sh sm) (fmtHHMM ch cm) && strLe (fmtHHMM ch cm) (fmtHHMM eh em)
        else
          strLe (fmtHHMM ch cm) (fmtHHMM eh em) || strLe (fmtHHMM sh sm) (fmtHHMM ch cm))) = _
    rw [Bool.true_and, hne]
    simp only [Bool.false_eq_true, if_false]
  rw [key]
  rw [strLe_fmtHHMM sh sm eh em (by omega) hsm (by omega) hem,
    strLe_fmtHHMM sh sm ch cm (by omega) hsm (by omega) hcm,
    strLe_fmtHHMM ch cm eh em (by omega) hcm (by omega) hem]
  by_cases hse : sh * 60 + sm ≤ eh * 60 + em
  · rw [if_pos (decide_eq_true hse), if_pos hse]
    exact (Bool.decide_and _ _).symm
  · rw [if_neg (fun hc => hse (of_decide_eq_true hc)), if_neg hse]
    rw [Bool.or_comm]
    exact (Bool.decide_or _ _).symm

/-- Witness for C2: the semantics theorem at the wrap-around window
22:00-02:00 and current time 23:30, where it reports the window
active. -/
theorem C2_witness :
    TimeWindow.is_active
        ⟨some (fmtHHMM 22 0), some (fmtHHMM 2 0), Option.none, "UTC"⟩ "Monday"
        (fmtHHMM 23 30) =
      (if 22 * 60 + 0 ≤ 2 * 60 + 0 then
        decide (22 * 60 + 0 ≤ 23 * 60 + 30 ∧ 23 * 60 + 30 ≤ 2 * 60 + 0)
       else
        decide (22 * 60 + 0 ≤ 23 * 60 + 30 ∨ 23 * 60 + 30 ≤ 2 * 60 + 0)) :=
  (C2_wraparound_window "Monday" 22 0 2 0 23 30 (by norm_num) (by norm_num)
    (by norm_num) (by norm_num) (by norm_num) (by norm_num)).1

end PromoEngine
